import Mathlib

/-!
Verification development for the clanki adapter (src/index.ts).

The file shallowly embeds the two core parts of the adapter:
* the `ankiRequest` retry pipeline (attempt loop, transport vs. envelope
  interpretation, backoff delays),
* the per-operation handlers (`create-cloze-card`, `update-card`,
  `update-cloze-card`) and the deck-listing note projection / batching,
and proves or refutes the frozen behavioural claims about them.
-/

namespace Clanki

/-! ## Request pipeline (`ankiRequest`, src/index.ts lines 66-183)

One attempt of the pipeline observes: a request-level error (`req.on("error")`),
or an HTTP response with a status code and a body.  A 200 body either fails to
parse as JSON or parses to the AnkiConnect envelope
`\x7b result: T | null, error: string | null \x7d`. -/

/-- Outcome of parsing a response body: unparseable raw text, or a parsed
envelope with an optional `error` string and optional (`null`/absent) `result`. -/
inductive BodyParse (T : Type) where
  | unparseable (raw : String)
  | parsed (error : Option String) (result : Option T)
deriving DecidableEq

/-- What one HTTP attempt of `ankiRequest` observes from the environment. -/
inductive AttemptResult (T : Type) where
  | reqError (msg : String)
  | httpResp (statusCode : Nat) (body : BodyParse T)
deriving DecidableEq

/-- JavaScript truthiness of `parsedData.error` (a `string | null`):
truthy exactly when present and non-empty. -/
def errTruthy : Option String → Bool
  | none => false
  | some s => !(s == "")

/-- The null-on-success allow-list hard-coded at src/index.ts line 134. -/
def nullOnSuccess (action : String) : Bool :=
  action == "updateNoteFields" || action == "replaceTags"

/-- Interpretation of a single attempt (the promise body, src/index.ts lines
99-166).  `Except.ok none` models `resolve(\x7b\x7d as T)` (the empty success
payload); `Except.ok (some v)` models `resolve(parsedData.result)`. -/
def processAttempt (action : String) : AttemptResult T → Except String (Option T)
  | .reqError msg => .error msg
  | .httpResp code body =>
    if code ≠ 200 then
      .error ("AnkiConnect request failed with status " ++ toString code)
    else
      match body with
      | .unparseable raw => .error ("Failed to parse AnkiConnect response: " ++ raw)
      | .parsed err res =>
        if errTruthy err then
          .error ("AnkiConnect error: " ++ err.getD "")
        else
          match res with
          | some v => .ok (some v)
          | none =>
            if nullOnSuccess action then .ok none
            else .error "AnkiConnect returned null/undefined result"

/-- Observable trace of one `ankiRequest` run: how many attempts were made,
which backoff delays were slept (in order), and the final outcome. -/
structure RunTrace (T : Type) where
  attempts : Nat
  sleeps : List Nat
  outcome : Except String (Option T)

/-- The `for (let attempt = 1; attempt <= retries; attempt++)` loop of
`ankiRequest` (src/index.ts lines 77-182), with `remaining` the number of
loop iterations still available (`retries - attempt + 1`).  On a failed
attempt with `attempt === retries` the last error is rethrown; otherwise the
loop sleeps `delay` ms and doubles the delay.  The fuel-0 case is the
`throw new Error(...)` after the loop, reachable only when `retries < 1`. -/
def ankiLoop (action : String) (env : Nat → AttemptResult T) (retries : Nat) :
    Nat → Nat → Nat → List Nat → RunTrace T
  | 0, attempt, _, sleeps =>
    ⟨attempt - 1, sleeps, .error ("Failed after " ++ toString retries ++ " attempts")⟩
  | remaining + 1, attempt, delay, sleeps =>
    match processAttempt action (env attempt) with
    | .ok v => ⟨attempt, sleeps, .ok v⟩
    | .error e =>
      if remaining = 0 then
        ⟨attempt, sleeps, .error e⟩
      else
        ankiLoop action env retries remaining (attempt + 1) (delay * 2) (sleeps ++ [delay])

/-- The full `ankiRequest(action, params, retries = 3, delay = 1000)`: run the attempt
loop from attempt 1.  `env i` is what attempt `i` observes. -/
def ankiRequest (action : String) (env : Nat → AttemptResult T)
    (retries : Nat := 3) (delay : Nat := 1000) : RunTrace T :=
  ankiLoop action env retries retries 1 delay []

/-- Transport-level failure of an attempt: request error, unparseable body,
or non-200 status. -/
def transportFail : AttemptResult T → Bool
  | .reqError _ => true
  | .httpResp _ (.unparseable _) => true
  | .httpResp code (.parsed _ _) => !(code == 200)

/-- Semantic failure of an attempt: a well-formed 200 envelope whose `error`
field is truthy, or whose `result` is null on an action outside the
null-on-success allow-list. -/
def semanticFail (action : String) : AttemptResult T → Bool
  | .httpResp code (.parsed err res) =>
      code == 200 && (errTruthy err || (res.isNone && !nullOnSuccess action))
  | _ => false

/-- The doubling backoff schedule: `k` delays starting at `d`. -/
def geomList (d : Nat) : Nat → List Nat
  | 0 => []
  | k + 1 => d :: geomList (d * 2) k

theorem geomList_eq_map : ∀ (k d : Nat), geomList d k = (List.range k).map (fun i => 2 ^ i * d) := by
  intro k
  induction k with
  | zero => intro d; simp [geomList]
  | succ j ih =>
    intro d
    have hf : (fun i => 2 ^ i * (d * 2)) = (fun i => 2 ^ i * d) ∘ Nat.succ := by
      funext i
      simp only [Function.comp, pow_succ]
      ring
    rw [geomList, ih (d * 2), List.range_succ_eq_map, hf]
    simp [List.map_map]

/-- If every attempt fails (its `processAttempt` is an error), the loop runs to
its last available attempt, sleeping the doubling schedule in between, and the
final outcome is the interpretation of the last attempt. -/
theorem ankiLoop_all_error (action : String) (env : Nat → AttemptResult T) (retries : Nat)
    (hfail : ∀ i, ∃ e, processAttempt action (env i) = Except.error e) :
    ∀ remaining, 1 ≤ remaining → ∀ (attempt delay : Nat) (sleeps : List Nat),
      ankiLoop action env retries remaining attempt delay sleeps =
        ⟨attempt + remaining - 1, sleeps ++ geomList delay (remaining - 1),
         processAttempt action (env (attempt + remaining - 1))⟩ := by
  intro remaining
  induction remaining with
  | zero => intro h; exact absurd h (by omega)
  | succ k ih =>
    intro _ attempt delay sleeps
    obtain ⟨e, he⟩ := hfail attempt
    rcases Nat.eq_zero_or_pos k with hk | hk
    · subst hk
      simp [ankiLoop, he, geomList]
    · obtain ⟨j, rfl⟩ : ∃ j, k = j + 1 := ⟨k - 1, by omega⟩
      rw [ankiLoop, he]
      simp only [Nat.succ_ne_zero, if_false]
      rw [ih (by omega) (attempt + 1) (delay * 2) (sleeps ++ [delay])]
      have h1 : attempt + 1 + (j + 1) - 1 = attempt + (j + 1 + 1) - 1 := by omega
      rw [h1]
      have h2 : (sleeps ++ [delay]) ++ geomList (delay * 2) (j + 1 - 1) =
          sleeps ++ geomList delay (j + 1 + 1 - 1) := by
        simp [geomList]
      rw [h2]

/-- A transport-level failure always makes the attempt fail. -/
theorem transportFail_error (action : String) (r : AttemptResult T)
    (h : transportFail r = true) : ∃ e, processAttempt action r = Except.error e := by
  cases r with
  | reqError msg => exact ⟨msg, rfl⟩
  | httpResp code body =>
    cases body with
    | unparseable raw =>
      by_cases hc : code = 200
      · subst hc
        exact ⟨_, rfl⟩
      · exact ⟨"AnkiConnect request failed with status " ++ toString code,
          by simp [processAttempt, hc]⟩
    | parsed err res =>
      have hc : code ≠ 200 := by
        simpa [transportFail] using h
      exact ⟨"AnkiConnect request failed with status " ++ toString code,
        by simp [processAttempt, hc]⟩

/-- A semantic failure (truthy `error` field, or null result outside the
allow-list) also makes the attempt fail. -/
theorem semanticFail_error (action : String) (r : AttemptResult T)
    (h : semanticFail action r = true) : ∃ e, processAttempt action r = Except.error e := by
  cases r with
  | reqError msg => exact ⟨msg, rfl⟩
  | httpResp code body =>
    cases body with
    | unparseable raw => simp [semanticFail] at h
    | parsed err res =>
      simp only [semanticFail, Bool.and_eq_true, beq_iff_eq, Bool.or_eq_true] at h
      obtain ⟨rfl, h⟩ := h
      by_cases herr : errTruthy err = true
      · exact ⟨"AnkiConnect error: " ++ err.getD "", by simp [processAttempt, herr]⟩
      · rcases h with h | hna
        · exact absurd h herr
        · obtain ⟨hres, hact⟩ := hna
          have hres' : res = none := by
            cases res <;> simp_all
          have hact' : nullOnSuccess action = false := by
            simpa using hact
          exact ⟨"AnkiConnect returned null/undefined result",
            by simp [processAttempt, herr, hres', hact']⟩

/-- If the very first attempt succeeds, the loop returns at once with no sleeps. -/
theorem ankiLoop_first_ok (action : String) (env : Nat → AttemptResult T) (retries : Nat)
    (k attempt delay : Nat) (sleeps : List Nat) (v : Option T)
    (hok : processAttempt action (env attempt) = Except.ok v) :
    ankiLoop action env retries (k + 1) attempt delay sleeps = ⟨attempt, sleeps, .ok v⟩ := by
  simp only [ankiLoop]
  rw [hok]

/-! ## Environments used in the pipeline counterexamples and witnesses -/

/-- Every attempt gets a 200 envelope whose `error` field is the non-null
string "boom" (a backend-reported semantic error). -/
def semEnv : Nat → AttemptResult Nat := fun _ => .httpResp 200 (.parsed (some "boom") none)

/-- Every attempt gets a 200 envelope with null `error` and null `result`. -/
def nullEnv : Nat → AttemptResult Nat := fun _ => .httpResp 200 (.parsed none none)

/-- Every attempt fails at the request level (connection refused). -/
def transportEnv : Nat → AttemptResult Nat :=
  fun _ => .reqError "connect ECONNREFUSED 127.0.0.1:8765"

/-- C1 counterexample: with default `retries = 3`, `delay = 1000`, a backend
response carrying the non-null error "boom" on every attempt does NOT make the
pipeline stop at attempt 1: the `catch` of the attempt loop retries it, so the
run makes 3 attempts and sleeps the backoff delays 1000 and 2000 ms.  The same
happens for a null result on an action ("deckNames") outside the null-on-success
allow-list. -/
theorem c1_semantic_error_retried_cex :
    (ankiRequest "deckNames" semEnv 3 1000).attempts = 3 ∧
    (ankiRequest "deckNames" semEnv 3 1000).attempts ≠ 1 ∧
    (ankiRequest "deckNames" semEnv 3 1000).sleeps = [1000, 2000] ∧
    (ankiRequest "deckNames" semEnv 3 1000).outcome =
      Except.error "AnkiConnect error: boom" ∧
    (ankiRequest "deckNames" nullEnv 3 1000).attempts = 3 ∧
    (ankiRequest "deckNames" nullEnv 3 1000).sleeps = [1000, 2000] :=
  ⟨rfl, by decide, rfl, rfl, rfl, rfl⟩

/-- C1 amended: a semantic failure (non-null error field, or null result
outside the allow-list) is retried exactly like a transport failure: when every
attempt fails semantically, `ankiRequest` makes `retries` attempts, sleeping
delays that double from the base delay, and fails with the last attempt's
semantic error. -/
theorem c1_semantic_fail_retried (action : String) (env : Nat → AttemptResult Nat)
    (retries delay : Nat) (hr : 1 ≤ retries)
    (h : ∀ i, semanticFail action (env i) = true) :
    (ankiRequest action env retries delay).attempts = retries ∧
    (ankiRequest action env retries delay).sleeps =
      (List.range (retries - 1)).map (fun i => 2 ^ i * delay) ∧
    (ankiRequest action env retries delay).outcome = processAttempt action (env retries) ∧
    ∃ e, processAttempt action (env retries) = Except.error e := by
  have hfail : ∀ i, ∃ e, processAttempt action (env i) = Except.error e :=
    fun i => semanticFail_error action (env i) (h i)
  have hloop := ankiLoop_all_error action env retries hfail retries hr 1 delay []
  have h1 : 1 + retries - 1 = retries := by omega
  unfold ankiRequest
  rw [hloop, h1]
  exact ⟨rfl, by simp [geomList_eq_map], rfl, hfail retries⟩

/-- C1 witness: the amended behaviour at a concrete semantic-error input. -/
theorem c1_semantic_fail_retried_witness :
    (ankiRequest "deckNames" semEnv 3 1000).attempts = 3 ∧
    (ankiRequest "deckNames" semEnv 3 1000).sleeps = [1000, 2000] := by
  have h := c1_semantic_fail_retried "deckNames" semEnv 3 1000 (by omega) (fun i => rfl)
  exact ⟨h.1, by rw [h.2.1]; rfl⟩

/-- C2 (confirmed): when every attempt is a transport-level failure (request
error, non-200 status, or unparseable body), `ankiRequest` makes exactly
`retries` attempts, sleeps delays doubling from the base delay before each
retry, and fails with the transport error of the last attempt. -/
theorem c2_transport_failures_exhaust_retries (action : String)
    (env : Nat → AttemptResult Nat) (retries delay : Nat) (hr : 1 ≤ retries)
    (h : ∀ i, transportFail (env i) = true) :
    (ankiRequest action env retries delay).attempts = retries ∧
    (ankiRequest action env retries delay).sleeps =
      (List.range (retries - 1)).map (fun i => 2 ^ i * delay) ∧
    (ankiRequest action env retries delay).outcome = processAttempt action (env retries) ∧
    ∃ e, processAttempt action (env retries) = Except.error e := by
  have hfail : ∀ i, ∃ e, processAttempt action (env i) = Except.error e :=
    fun i => transportFail_error action (env i) (h i)
  have hloop := ankiLoop_all_error action env retries hfail retries hr 1 delay []
  have h1 : 1 + retries - 1 = retries := by omega
  unfold ankiRequest
  rw [hloop, h1]
  exact ⟨rfl, by simp [geomList_eq_map], rfl, hfail retries⟩

/-- C2 witness: connection refused on all attempts, default parameters. -/
theorem c2_transport_failures_exhaust_retries_witness :
    (ankiRequest "deckNames" transportEnv 3 1000).attempts = 3 ∧
    (ankiRequest "deckNames" transportEnv 3 1000).sleeps = [1000, 2000] ∧
    (ankiRequest "deckNames" transportEnv 3 1000).outcome =
      Except.error "connect ECONNREFUSED 127.0.0.1:8765" := by
  have h := c2_transport_failures_exhaust_retries "deckNames" transportEnv 3 1000
    (by omega) (fun i => rfl)
  exact ⟨h.1, by rw [h.2.1]; rfl, by rw [h.2.2.1]; rfl⟩

/-- C3 (confirmed): on a 200 response with null error and null/absent result
on every attempt, `ankiRequest` succeeds with the empty payload exactly when
the action is `updateNoteFields` or `replaceTags` (and then on the first
attempt); any other action fails with the null-result error. -/
theorem c3_null_result_allowlist (action : String) (env : Nat → AttemptResult Nat)
    (retries delay : Nat) (hr : 1 ≤ retries)
    (h : ∀ i, env i = .httpResp 200 (.parsed none none)) :
    ((ankiRequest action env retries delay).outcome = Except.ok none ↔
      (action = "updateNoteFields" ∨ action = "replaceTags")) ∧
    ((action = "updateNoteFields" ∨ action = "replaceTags") →
      ankiRequest action env retries delay = ⟨1, [], Except.ok none⟩) ∧
    (action ≠ "updateNoteFields" → action ≠ "replaceTags" →
      (ankiRequest action env retries delay).outcome =
        Except.error "AnkiConnect returned null/undefined result") := by
  by_cases hallow : action = "updateNoteFields" ∨ action = "replaceTags"
  · have hns : nullOnSuccess action = true := by
      rcases hallow with rfl | rfl <;> rfl
    have hproc : processAttempt action (env 1) = Except.ok none := by
      rw [h 1]
      simp [processAttempt, errTruthy, hns]
    have hsucc : ankiRequest action env retries delay = ⟨1, [], Except.ok none⟩ := by
      obtain ⟨k, rfl⟩ : ∃ k, retries = k + 1 := ⟨retries - 1, by omega⟩
      exact ankiLoop_first_ok action env (k + 1) k 1 delay [] none hproc
    refine ⟨?_, fun _ => hsucc, fun h1 h2 => absurd hallow (by tauto)⟩
    rw [hsucc]
    simp [hallow]
  · have hne1 : action ≠ "updateNoteFields" := fun hc => hallow (Or.inl hc)
    have hne2 : action ≠ "replaceTags" := fun hc => hallow (Or.inr hc)
    have hns : nullOnSuccess action = false := by
      simp [nullOnSuccess, hne1, hne2]
    have hfail : ∀ i, processAttempt action (env i) =
        Except.error "AnkiConnect returned null/undefined result" := by
      intro i
      rw [h i]
      simp [processAttempt, errTruthy, hns]
    have hloop := ankiLoop_all_error action env retries
      (fun i => ⟨_, hfail i⟩) retries hr 1 delay []
    have h1 : 1 + retries - 1 = retries := by omega
    have hout : (ankiRequest action env retries delay).outcome =
        Except.error "AnkiConnect returned null/undefined result" := by
      unfold ankiRequest
      rw [hloop, h1]
      exact hfail retries
    refine ⟨?_, fun hc => absurd hc hallow, fun _ _ => hout⟩
    rw [hout]
    simp [hallow]

/-- C3 witness: the allow-listed action `updateNoteFields` succeeds on the
first attempt with the empty payload; `deckNames` fails with the null-result
error. -/
theorem c3_null_result_allowlist_witness :
    (ankiRequest "updateNoteFields" nullEnv 3 1000 = ⟨1, [], Except.ok none⟩) ∧
    (ankiRequest "deckNames" nullEnv 3 1000).outcome =
      Except.error "AnkiConnect returned null/undefined result" := by
  have h1 := c3_null_result_allowlist "updateNoteFields" nullEnv 3 1000
    (by omega) (fun i => rfl)
  have h2 := c3_null_result_allowlist "deckNames" nullEnv 3 1000
    (by omega) (fun i => rfl)
  exact ⟨h1.2.1 (Or.inl rfl), h2.2.2 (by decide) (by decide)⟩

/-! ## Card projection (`cardInfo` mapping, src/index.ts lines 629-662)

A raw note as returned by `notesInfo`: model name, a field map (each entry the
`value` string of a `\x7b value: string \x7d` wrapper), associated card ids,
and tags.  The JS code accesses `note.fields.X.value` directly, so an absent
field makes the mapping throw a `TypeError`; the embedding therefore returns
`Except`, with `.error` for the throwing paths. -/

structure RawNote where
  modelName : String
  fields : List (String × String)
  cards : List Nat
  tags : List String
deriving DecidableEq

/-- The uniform card view built by the `ReadResourceRequestSchema` handler
(`AnkiCard` in the source, with `fields.Front.value` / `fields.Back.value`
flattened to `front` / `back`).  `cardId` is `note.cards[0]`, which in JS is
`undefined` (here `none`) for an empty card list. -/
structure AnkiCard where
  cardId : Option Nat
  front : String
  back : String
  tags : List String
deriving DecidableEq

/-- The per-note branch of the `allNotes.map` at src/index.ts lines 629-662.
"Cloze" reads `fields.Text.value` and `fields["Back Extra"].value ||
"[Cloze deletion]"`; "Basic" reads `fields.Front.value` and
`fields.Back.value`; anything else degrades to the placeholder.  Accessing a
missing field is the JS `TypeError` path, modelled as `.error`. -/
def projectNote (note : RawNote) : Except String AnkiCard :=
  if note.modelName = "Cloze" then
    match List.lookup "Text" note.fields, List.lookup "Back Extra" note.fields with
    | some t, some b =>
      .ok ⟨note.cards.head?, t, if b = "" then "[Cloze deletion]" else b, note.tags⟩
    | _, _ => .error "TypeError: Cannot read properties of undefined (reading value)"
  else if note.modelName = "Basic" then
    match List.lookup "Front" note.fields, List.lookup "Back" note.fields with
    | some f, some bk => .ok ⟨note.cards.head?, f, bk, note.tags⟩
    | _, _ => .error "TypeError: Cannot read properties of undefined (reading value)"
  else
    .ok ⟨note.cards.head?, "[Unknown note type]", "[Unknown note type]", note.tags⟩

/-- Whether a projection succeeded (did not hit a throwing path). -/
def exceptOk : Except String AnkiCard → Bool
  | .ok _ => true
  | .error _ => false

/-- A Cloze note whose "Back Extra" field is entirely absent. -/
def clozeNoBackExtra : RawNote := ⟨"Cloze", [("Text", "sample text")], [77], ["t1"]⟩

/-- A Cloze note whose "Back Extra" field is present but empty. -/
def clozeEmptyBackExtra : RawNote :=
  ⟨"Cloze", [("Text", "sample text"), ("Back Extra", "")], [77], ["t1"]⟩

/-- A Basic note missing its "Front" field. -/
def basicNoFront : RawNote := ⟨"Basic", [("Back", "b")], [5], []⟩

/-- C4 counterexample: on a Cloze note whose "Back Extra" field is entirely
absent, the projection does NOT yield the "[Cloze deletion]" placeholder — it
throws (`note.fields["Back Extra"].value` is a TypeError), so it yields no
card at all. -/
theorem c4_cloze_absent_back_extra_cex :
    clozeNoBackExtra.modelName = "Cloze" ∧
    List.lookup "Back Extra" clozeNoBackExtra.fields = none ∧
    exceptOk (projectNote clozeNoBackExtra) = false := by
  decide

/-- C4 amended: for a Cloze note whose "Text" and "Back Extra" fields are both
present, projection yields `front` = the Text value and `back` = the Back
Extra value when non-empty, else the "[Cloze deletion]" placeholder; when
"Back Extra" is entirely absent the projection fails instead of producing the
placeholder. -/
theorem c4_cloze_projection (n : RawNote) (t b : String)
    (hm : n.modelName = "Cloze")
    (ht : List.lookup "Text" n.fields = some t)
    (hb : List.lookup "Back Extra" n.fields = some b) :
    projectNote n =
      Except.ok ⟨n.cards.head?, t, if b = "" then "[Cloze deletion]" else b, n.tags⟩ := by
  simp [projectNote, hm, ht, hb]

/-- C4 witness: a Cloze note with an empty "Back Extra" value projects to the
placeholder back text. -/
theorem c4_cloze_projection_witness :
    projectNote clozeEmptyBackExtra =
      Except.ok ⟨some 77, "sample text", "[Cloze deletion]", ["t1"]⟩ := by
  have h := c4_cloze_projection clozeEmptyBackExtra "sample text" "" rfl rfl rfl
  rw [h]
  rfl

/-- C5 counterexample: the projection is NOT total over all model names — a
Basic note missing its "Front" field takes the throwing path
(`note.fields.Front.value` is a TypeError), so "it has no failure path for any
model name" is false. -/
theorem c5_projection_failure_path_cex :
    basicNoFront.modelName = "Basic" ∧
    exceptOk (projectNote basicNoFront) = false := by
  decide

/-- C5 amended: for every raw note whose model name is neither "Basic" nor
"Cloze", the projection yields front = back = "[Unknown note type]" with the
tag list unchanged and never fails; failure paths exist only for
"Basic"/"Cloze" notes whose expected fields are absent. -/
theorem c5_unknown_model_projection (n : RawNote)
    (h1 : n.modelName ≠ "Basic") (h2 : n.modelName ≠ "Cloze") :
    projectNote n =
      Except.ok ⟨n.cards.head?, "[Unknown note type]", "[Unknown note type]", n.tags⟩ := by
  simp [projectNote, h1, h2]

/-- C5 witness: a note with model "Image Occlusion" projects to placeholders. -/
theorem c5_unknown_model_projection_witness :
    projectNote ⟨"Image Occlusion", [("Data", "x")], [9], ["vis"]⟩ =
      Except.ok ⟨some 9, "[Unknown note type]", "[Unknown note type]", ["vis"]⟩ := by
  have h := c5_unknown_model_projection ⟨"Image Occlusion", [("Data", "x")], [9], ["vis"]⟩
    (by decide) (by decide)
  rw [h]
  rfl

/-! ## Tool handlers (`CallToolRequestSchema` handler, src/index.ts lines 337-544)

Each handler is embedded as a function from its (already zod-parsed) arguments
and a backend oracle to the ordered list of AnkiConnect requests it issues
plus its final outcome.  The oracle gives the values the awaited
`ankiRequest` calls return; the embedding covers the runs in which those calls
succeed, which is all the cited claims need. -/

/-- Parameter payloads of the AnkiConnect requests the handlers issue. -/
inductive ReqParams where
  | createDeck (deck : String)
  | addNote (deckName modelName : String) (fields : List (String × String))
      (tags : List String)
  | cardsToNotes (cards : List Nat)
  | notesInfo (notes : List Nat)
  | updateNoteFields (id : Nat) (fields : List (String × String))
  | replaceTags (notes : List Nat) (tags : String)
  | findNotes (query : String)
deriving DecidableEq

/-- One issued backend request: the action string passed to `ankiRequest`
plus its parameters. -/
structure Request where
  action : String
  params : ReqParams
deriving DecidableEq

/-- JavaScript truthiness of an optional string argument (`if (front)`,
`if (text)`, ...): truthy exactly when present and non-empty. -/
def strTruthy : Option String → Bool
  | none => false
  | some s => !(s == "")

/-- Does the character list start with the given pattern? -/
def charsStartWith : List Char → List Char → Bool
  | _, [] => true
  | [], _ :: _ => false
  | c :: cs, p :: ps => c == p && charsStartWith cs ps

/-- Does `l` contain `p` as a contiguous run (JS `String.prototype.includes`)? -/
def charsContains : List Char → List Char → Bool
  | [], pat => charsStartWith [] pat
  | c :: cs, pat => charsStartWith (c :: cs) pat || charsContains cs pat

/-- JS `s.includes(pat)`. -/
def strIncludes (s pat : String) : Bool := charsContains s.toList pat.toList

/-- The cloze-marker validation of src/index.ts lines 439 and 496:
`text.includes("\x7b\x7bc") && text.includes("\x7d\x7d")`. -/
def hasClozeMarker (s : String) : Bool :=
  strIncludes s "\x7b\x7bc" && strIncludes s "\x7d\x7d"

/-- The validation-error message thrown when the marker check fails. -/
def clozeValidationMsg : String :=
  "Text must contain at least one cloze deletion using \x7b\x7bc1::text\x7d\x7d syntax"

/-- The `tags.join(" ")` of the tag-update calls. -/
def joinSpaces (ts : List String) : String := String.intercalate " " ts

/-- Parsed arguments of `create-cloze-card` (CreateClozeCardArgumentsSchema). -/
structure CreateClozeCardArgs where
  deckName : String
  text : String
  backExtra : Option String
  tags : Option (List String)
deriving DecidableEq

/-- Parsed arguments of `update-card` (UpdateCardArgumentsSchema). -/
structure UpdateCardArgs where
  cardId : Nat
  front : Option String
  back : Option String
  tags : Option (List String)
deriving DecidableEq

/-- Parsed arguments of `update-cloze-card` (UpdateClozeCardArgumentsSchema). -/
structure UpdateClozeCardArgs where
  cardId : Nat
  text : Option String
  backExtra : Option String
  tags : Option (List String)
deriving DecidableEq

/-- Backend oracle: the values returned by the `cardsToNotes` and `notesInfo`
calls the update handlers await. -/
structure Backend where
  cardsToNotes : List Nat → List Nat
  notesInfo : List Nat → List RawNote

/-- The `create-cloze-card` handler (src/index.ts lines 430-465): defaults
`backExtra` to `""` and `tags` to `[]`, validates the cloze marker before any
network call, then issues one `addNote` with model "Cloze" and fields
`\x7b Text, Back \x7d` (note: the key it sends is "Back", not "Back Extra"). -/
def createClozeCardHandler (a : CreateClozeCardArgs) :
    List Request × Except String String :=
  let backExtra := a.backExtra.getD ""
  let tags := a.tags.getD []
  if !(hasClozeMarker a.text) then
    ([], .error clozeValidationMsg)
  else
    ([⟨"addNote", .addNote a.deckName "Cloze" [("Text", a.text), ("Back", backExtra)] tags⟩],
     .ok ("Successfully created new cloze card in deck \"" ++ a.deckName ++ "\""))

/-- The `update-card` handler (src/index.ts lines 386-428): resolve the note
id, then `if (front || back)` send one `updateNoteFields` whose field map has
`Front`/`Back` only for truthy arguments, then `if (tags)` send one
`replaceTags`. -/
def updateCardHandler (b : Backend) (a : UpdateCardArgs) :
    List Request × Except String String :=
  let req1 : Request := ⟨"cardsToNotes", .cardsToNotes [a.cardId]⟩
  match b.cardsToNotes [a.cardId] with
  | [] => ([req1], .error ("No note found for card " ++ toString a.cardId))
  | noteId :: _ =>
    let fieldReqs : List Request :=
      if strTruthy a.front || strTruthy a.back then
        [⟨"updateNoteFields", .updateNoteFields noteId
          ((if strTruthy a.front then [("Front", a.front.getD "")] else []) ++
           (if strTruthy a.back then [("Back", a.back.getD "")] else []))⟩]
      else []
    let tagReqs : List Request :=
      match a.tags with
      | some ts => [⟨"replaceTags", .replaceTags [noteId] (joinSpaces ts)⟩]
      | none => []
    (req1 :: fieldReqs ++ tagReqs,
     .ok ("Successfully updated card " ++ toString a.cardId))

/-- The `update-cloze-card` handler (src/index.ts lines 467-531): resolve the
note id (`cardsToNotes`), fetch the note (`notesInfo`), fail unless its model
is "Cloze"; then `if (text || backExtra)` validate the cloze marker of a
truthy `text` and send one `updateNoteFields` with `Text` (truthy text only)
and `"Back Extra"` (whenever `backExtra !== undefined`); then `if (tags)` send
one `replaceTags`. -/
def updateClozeCardHandler (b : Backend) (a : UpdateClozeCardArgs) :
    List Request × Except String String :=
  let req1 : Request := ⟨"cardsToNotes", .cardsToNotes [a.cardId]⟩
  match b.cardsToNotes [a.cardId] with
  | [] => ([req1], .error ("No note found for card " ++ toString a.cardId))
  | noteId :: _ =>
    let req2 : Request := ⟨"notesInfo", .notesInfo [noteId]⟩
    match b.notesInfo [noteId] with
    | [] =>
      ([req1, req2],
       .error "TypeError: Cannot read properties of undefined (reading modelName)")
    | note :: _ =>
      if !(note.modelName == "Cloze") then
        ([req1, req2], .error "This card is not a cloze deletion card")
      else if strTruthy a.text || strTruthy a.backExtra then
        if strTruthy a.text && !(hasClozeMarker (a.text.getD "")) then
          ([req1, req2], .error clozeValidationMsg)
        else
          let flds := (if strTruthy a.text then [("Text", a.text.getD "")] else []) ++
                      (if a.backExtra.isSome then [("Back Extra", a.backExtra.getD "")] else [])
          let tagReqs : List Request :=
            match a.tags with
            | some ts => [⟨"replaceTags", .replaceTags [noteId] (joinSpaces ts)⟩]
            | none => []
          ([req1, req2, ⟨"updateNoteFields", .updateNoteFields noteId flds⟩] ++ tagReqs,
           .ok ("Successfully updated cloze card " ++ toString a.cardId))
      else
        let tagReqs : List Request :=
          match a.tags with
          | some ts => [⟨"replaceTags", .replaceTags [noteId] (joinSpaces ts)⟩]
          | none => []
        (req1 :: req2 :: tagReqs,
         .ok ("Successfully updated cloze card " ++ toString a.cardId))

/-! ## Claims about the handlers -/

/-- Backend fixture whose target note is a Cloze note. -/
def c6Backend : Backend :=
  ⟨fun _ => [10], fun _ => [⟨"Cloze", [("Text", "t"), ("Back Extra", "")], [3], []⟩]⟩

/-- C6 counterexample: an `update-cloze-card` call whose text has no cloze
marker DOES issue network calls before its validation error: the handler first
issues `cardsToNotes` and `notesInfo`, and only then throws the validation
error — so "no network call of any kind is issued before the error" fails for
update-cloze-card. -/
theorem c6_update_validation_after_lookups_cex :
    (updateClozeCardHandler c6Backend ⟨5, some "Capital of France: Paris", none, none⟩).2 =
      Except.error clozeValidationMsg ∧
    (updateClozeCardHandler c6Backend ⟨5, some "Capital of France: Paris", none, none⟩).1 =
      [⟨"cardsToNotes", .cardsToNotes [5]⟩, ⟨"notesInfo", .notesInfo [10]⟩] ∧
    (updateClozeCardHandler c6Backend ⟨5, some "Capital of France: Paris", none, none⟩).1 ≠
      [] :=
  ⟨rfl, rfl, by decide⟩

/-- C6 amended: `create-cloze-card` validates the cloze marker before any
network call (no-marker text fails with the validation error and an empty
request list; marked text passes and issues the `addNote`); `update-cloze-card`
also rejects a truthy no-marker text with the same validation error and issues
no write, but only after the `cardsToNotes` and `notesInfo` lookups have
already been issued. -/
theorem c6_cloze_marker_validation :
    (∀ a : CreateClozeCardArgs, hasClozeMarker a.text = false →
      createClozeCardHandler a = ([], Except.error clozeValidationMsg)) ∧
    (∀ a : CreateClozeCardArgs, hasClozeMarker a.text = true →
      createClozeCardHandler a =
        ([⟨"addNote", .addNote a.deckName "Cloze"
            [("Text", a.text), ("Back", a.backExtra.getD "")] (a.tags.getD [])⟩],
         Except.ok ("Successfully created new cloze card in deck \"" ++ a.deckName ++ "\""))) ∧
    (∀ (b : Backend) (a : UpdateClozeCardArgs) (noteId : Nat) (restIds : List Nat)
        (note : RawNote) (restNotes : List RawNote),
      b.cardsToNotes [a.cardId] = noteId :: restIds →
      b.notesInfo [noteId] = note :: restNotes →
      note.modelName = "Cloze" →
      strTruthy a.text = true →
      hasClozeMarker (a.text.getD "") = false →
      updateClozeCardHandler b a =
        ([⟨"cardsToNotes", .cardsToNotes [a.cardId]⟩, ⟨"notesInfo", .notesInfo [noteId]⟩],
         Except.error clozeValidationMsg)) := by
  refine ⟨?_, ?_, ?_⟩
  · intro a h
    simp [createClozeCardHandler, h]
  · intro a h
    simp [createClozeCardHandler, h]
  · intro b a noteId restIds note restNotes h1 h2 hm ht hmk
    simp [updateClozeCardHandler, h1, h2, hm, ht, hmk]

/-- C6 witness: the amended statement at concrete inputs — create with and
without a marker, and the update path hitting validation after the lookups. -/
theorem c6_cloze_marker_validation_witness :
    createClozeCardHandler ⟨"Geo", "Capital of France: Paris2", none, none⟩ =
      ([], Except.error clozeValidationMsg) ∧
    createClozeCardHandler ⟨"Geo", "Capital of France: \x7b\x7bc1::Paris\x7d\x7d", none, none⟩ =
      ([⟨"addNote", .addNote "Geo" "Cloze"
          [("Text", "Capital of France: \x7b\x7bc1::Paris\x7d\x7d"), ("Back", "")] []⟩],
       Except.ok "Successfully created new cloze card in deck \"Geo\"") ∧
    updateClozeCardHandler c6Backend ⟨5, some "no marker here", none, none⟩ =
      ([⟨"cardsToNotes", .cardsToNotes [5]⟩, ⟨"notesInfo", .notesInfo [10]⟩],
       Except.error clozeValidationMsg) := by
  refine ⟨c6_cloze_marker_validation.1 _ (by decide), ?_, ?_⟩
  · rw [c6_cloze_marker_validation.2.1 _ (by decide)]
    rfl
  · exact c6_cloze_marker_validation.2.2 c6Backend _ 10 [] _ [] rfl rfl rfl
      (by decide) (by decide)

/-- C7 (confirmed): when the note targeted by `update-cloze-card` has a model
name other than "Cloze", the handler fails with the domain-precondition error
right after the two lookups, and its request trace contains no
`updateNoteFields` and no `replaceTags` call. -/
theorem c7_update_cloze_model_guard (b : Backend) (a : UpdateClozeCardArgs)
    (noteId : Nat) (restIds : List Nat) (note : RawNote) (restNotes : List RawNote)
    (h1 : b.cardsToNotes [a.cardId] = noteId :: restIds)
    (h2 : b.notesInfo [noteId] = note :: restNotes)
    (h3 : note.modelName ≠ "Cloze") :
    updateClozeCardHandler b a =
      ([⟨"cardsToNotes", .cardsToNotes [a.cardId]⟩, ⟨"notesInfo", .notesInfo [noteId]⟩],
       Except.error "This card is not a cloze deletion card") ∧
    ∀ r ∈ (updateClozeCardHandler b a).1,
      r.action ≠ "updateNoteFields" ∧ r.action ≠ "replaceTags" := by
  have hmain : updateClozeCardHandler b a =
      ([⟨"cardsToNotes", .cardsToNotes [a.cardId]⟩, ⟨"notesInfo", .notesInfo [noteId]⟩],
       Except.error "This card is not a cloze deletion card") := by
    simp [updateClozeCardHandler, h1, h2, h3]
  refine ⟨hmain, ?_⟩
  rw [hmain]
  intro r hr
  rcases List.mem_cons.mp hr with rfl | hr
  · exact ⟨(by decide : ("cardsToNotes" : String) ≠ "updateNoteFields"),
      (by decide : ("cardsToNotes" : String) ≠ "replaceTags")⟩
  · rcases List.mem_cons.mp hr with rfl | hr
    · exact ⟨(by decide : ("notesInfo" : String) ≠ "updateNoteFields"),
        (by decide : ("notesInfo" : String) ≠ "replaceTags")⟩
    · exact absurd hr (List.not_mem_nil r)

/-- Backend fixture whose target note is a Basic note. -/
def basicBackend : Backend :=
  ⟨fun _ => [10], fun _ => [⟨"Basic", [("Front", "f"), ("Back", "b")], [3], []⟩]⟩

/-- C7 witness: updating a Basic note as a cloze card fails with the
domain-precondition error after exactly the two lookups. -/
theorem c7_update_cloze_model_guard_witness :
    updateClozeCardHandler basicBackend
        ⟨5, some "\x7b\x7bc1::x\x7d\x7d", some "e", some ["t"]⟩ =
      ([⟨"cardsToNotes", .cardsToNotes [5]⟩, ⟨"notesInfo", .notesInfo [10]⟩],
       Except.error "This card is not a cloze deletion card") :=
  (c7_update_cloze_model_guard basicBackend _ 10 [] _ [] rfl rfl (by decide)).1

/-- C9 failing input: `create-cloze-card` with a `backExtra` sends the cloze
back-extra value under the parameter field name "Back", not the backend's
published "Back Extra" (which the update handler and the projection both use):
the addNote fields it issues have no "Back Extra" key at all. -/
theorem c9_create_cloze_back_field_name :
    createClozeCardHandler
        ⟨"Geography", "Capital: \x7b\x7bc1::Paris\x7d\x7d", some "extra info", none⟩ =
      ([⟨"addNote", .addNote "Geography" "Cloze"
          [("Text", "Capital: \x7b\x7bc1::Paris\x7d\x7d"), ("Back", "extra info")] []⟩],
       Except.ok "Successfully created new cloze card in deck \"Geography\"") ∧
    List.lookup "Back Extra"
      [("Text", "Capital: \x7b\x7bc1::Paris\x7d\x7d"), ("Back", "extra info")] = none ∧
    List.lookup "Back"
      [("Text", "Capital: \x7b\x7bc1::Paris\x7d\x7d"), ("Back", "extra info")] =
        some "extra info" :=
  ⟨rfl, by decide, by decide⟩

/-- A truthy optional string has a non-empty default-extracted value. -/
theorem strTruthy_getD_ne (o : Option String) (h : strTruthy o = true) :
    o.getD "" ≠ "" := by
  cases o with
  | none => simp [strTruthy] at h
  | some s => simpa [strTruthy] using h

/-- The `update-card` field map never contains an empty Front or Back value. -/
theorem no_empty_in_front_back_fields (fo bo : Option String) (k : String) :
    (k, "") ∉ ((if strTruthy fo then [("Front", fo.getD "")] else []) ++
      (if strTruthy bo then [("Back", bo.getD "")] else [])) := by
  intro hmem
  rw [List.mem_append] at hmem
  rcases hmem with h | h
  · split at h
    · next hf =>
      rw [List.mem_singleton] at h
      exact strTruthy_getD_ne fo hf (congrArg Prod.snd h).symm
    · exact absurd h (List.not_mem_nil _)
  · split at h
    · next hb =>
      rw [List.mem_singleton] at h
      exact strTruthy_getD_ne bo hb (congrArg Prod.snd h).symm
    · exact absurd h (List.not_mem_nil _)

/-- The `update-cloze-card` field map never contains an empty Text value. -/
theorem no_empty_text_in_cloze_fields (txo bo : Option String) :
    ("Text", "") ∉ ((if strTruthy txo then [("Text", txo.getD "")] else []) ++
      (if bo.isSome then [("Back Extra", bo.getD "")] else [])) := by
  intro hmem
  rw [List.mem_append] at hmem
  rcases hmem with h | h
  · split at h
    · next ht =>
      rw [List.mem_singleton] at h
      exact strTruthy_getD_ne txo ht (congrArg Prod.snd h).symm
    · exact absurd h (List.not_mem_nil _)
  · split at h
    · rw [List.mem_singleton] at h
      have hfst : ("Text" : String) = "Back Extra" := congrArg Prod.fst h
      simp at hfst
    · exact absurd h (List.not_mem_nil _)

/-- C10 (confirmed): an empty-string `front`, `back`, or `text` argument to
the update handlers is treated exactly like an absent one (the handler's
behaviour is identical); when neither field argument is truthy no
`updateNoteFields` request is issued at all; and no issued `updateNoteFields`
request ever carries an empty Front, Back, or Text value — so these handlers
can never clear those note fields to the empty string. -/
theorem c10_empty_fields_treated_as_absent :
    (∀ (b : Backend) (a : UpdateCardArgs),
      updateCardHandler b { a with front := some "" } =
        updateCardHandler b { a with front := none }) ∧
    (∀ (b : Backend) (a : UpdateCardArgs),
      updateCardHandler b { a with back := some "" } =
        updateCardHandler b { a with back := none }) ∧
    (∀ (b : Backend) (a : UpdateClozeCardArgs),
      updateClozeCardHandler b { a with text := some "" } =
        updateClozeCardHandler b { a with text := none }) ∧
    (∀ (b : Backend) (a : UpdateCardArgs),
      strTruthy a.front = false → strTruthy a.back = false →
      ∀ r ∈ (updateCardHandler b a).1, r.action ≠ "updateNoteFields") ∧
    (∀ (b : Backend) (a : UpdateClozeCardArgs),
      strTruthy a.text = false → strTruthy a.backExtra = false →
      ∀ r ∈ (updateClozeCardHandler b a).1, r.action ≠ "updateNoteFields") ∧
    (∀ (b : Backend) (a : UpdateCardArgs) (nid : Nat) (flds : List (String × String)),
      (⟨"updateNoteFields", ReqParams.updateNoteFields nid flds⟩ : Request) ∈
        (updateCardHandler b a).1 →
      ("Front", "") ∉ flds ∧ ("Back", "") ∉ flds) ∧
    (∀ (b : Backend) (a : UpdateClozeCardArgs) (nid : Nat) (flds : List (String × String)),
      (⟨"updateNoteFields", ReqParams.updateNoteFields nid flds⟩ : Request) ∈
        (updateClozeCardHandler b a).1 →
      ("Text", "") ∉ flds) := by
  refine ⟨?_, ?_, ?_, ?_, ?_, ?_, ?_⟩
  · intro b a
    cases hcc : b.cardsToNotes [a.cardId] with
    | nil => simp [updateCardHandler, hcc]
    | cons nid rest => simp [updateCardHandler, hcc, strTruthy]
  · intro b a
    cases hcc : b.cardsToNotes [a.cardId] with
    | nil => simp [updateCardHandler, hcc]
    | cons nid rest => simp [updateCardHandler, hcc, strTruthy]
  · intro b a
    cases hcc : b.cardsToNotes [a.cardId] with
    | nil => simp [updateClozeCardHandler, hcc]
    | cons nid rest =>
      cases hni : b.notesInfo [nid] with
      | nil => simp [updateClozeCardHandler, hcc, hni]
      | cons note rest2 => simp [updateClozeCardHandler, hcc, hni, strTruthy]
  · intro b a h1 h2 r hr
    cases hcc : b.cardsToNotes [a.cardId] with
    | nil =>
      simp [updateCardHandler, hcc] at hr
      subst hr
      exact (by decide : ("cardsToNotes" : String) ≠ "updateNoteFields")
    | cons nid rest =>
      cases htg : a.tags with
      | none =>
        simp [updateCardHandler, hcc, htg, h1, h2] at hr
        subst hr
        exact (by decide : ("cardsToNotes" : String) ≠ "updateNoteFields")
      | some ts =>
        simp [updateCardHandler, hcc, htg, h1, h2] at hr
        rcases hr with rfl | rfl
        · exact (by decide : ("cardsToNotes" : String) ≠ "updateNoteFields")
        · exact (by decide : ("replaceTags" : String) ≠ "updateNoteFields")
  · intro b a h1 h2 r hr
    cases hcc : b.cardsToNotes [a.cardId] with
    | nil =>
      simp [updateClozeCardHandler, hcc] at hr
      subst hr
      exact (by decide : ("cardsToNotes" : String) ≠ "updateNoteFields")
    | cons nid rest =>
      cases hni : b.notesInfo [nid] with
      | nil =>
        simp [updateClozeCardHandler, hcc, hni] at hr
        rcases hr with rfl | rfl
        · exact (by decide : ("cardsToNotes" : String) ≠ "updateNoteFields")
        · exact (by decide : ("notesInfo" : String) ≠ "updateNoteFields")
      | cons note rest2 =>
        by_cases hm : note.modelName == "Cloze"
        · cases htg : a.tags with
          | none =>
            simp [updateClozeCardHandler, hcc, hni, hm, htg, h1, h2] at hr
            rcases hr with rfl | rfl
            · exact (by decide : ("cardsToNotes" : String) ≠ "updateNoteFields")
            · exact (by decide : ("notesInfo" : String) ≠ "updateNoteFields")
          | some ts =>
            simp [updateClozeCardHandler, hcc, hni, hm, htg, h1, h2] at hr
            rcases hr with rfl | rfl | rfl
            · exact (by decide : ("cardsToNotes" : String) ≠ "updateNoteFields")
            · exact (by decide : ("notesInfo" : String) ≠ "updateNoteFields")
            · exact (by decide : ("replaceTags" : String) ≠ "updateNoteFields")
        · simp [updateClozeCardHandler, hcc, hni, hm] at hr
          rcases hr with rfl | rfl
          · exact (by decide : ("cardsToNotes" : String) ≠ "updateNoteFields")
          · exact (by decide : ("notesInfo" : String) ≠ "updateNoteFields")
  · intro b a nid flds hmem
    cases hcc : b.cardsToNotes [a.cardId] with
    | nil => simp [updateCardHandler, hcc] at hmem
    | cons nid0 rest =>
      cases htg : a.tags with
      | none =>
        by_cases hfb : (strTruthy a.front || strTruthy a.back) = true
        · simp [updateCardHandler, hcc, htg, hfb] at hmem
          obtain ⟨-, rfl⟩ := hmem
          exact ⟨no_empty_in_front_back_fields a.front a.back "Front",
            no_empty_in_front_back_fields a.front a.back "Back"⟩
        · simp [updateCardHandler, hcc, htg, hfb] at hmem
      | some ts =>
        by_cases hfb : (strTruthy a.front || strTruthy a.back) = true
        · simp [updateCardHandler, hcc, htg, hfb] at hmem
          obtain ⟨-, rfl⟩ := hmem
          exact ⟨no_empty_in_front_back_fields a.front a.back "Front",
            no_empty_in_front_back_fields a.front a.back "Back"⟩
        · simp [updateCardHandler, hcc, htg, hfb] at hmem
  · intro b a nid flds hmem
    cases hcc : b.cardsToNotes [a.cardId] with
    | nil => simp [updateClozeCardHandler, hcc] at hmem
    | cons nid0 rest =>
      cases hni : b.notesInfo [nid0] with
      | nil => simp [updateClozeCardHandler, hcc, hni] at hmem
      | cons note rest2 =>
        by_cases hm : note.modelName == "Cloze"
        · by_cases hfb : (strTruthy a.text || strTruthy a.backExtra) = true
          · by_cases hval : (strTruthy a.text && !(hasClozeMarker (a.text.getD ""))) = true
            · simp [updateClozeCardHandler, hcc, hni, hm, hfb, hval] at hmem
            · cases htg : a.tags with
              | none =>
                simp [updateClozeCardHandler, hcc, hni, hm, hfb, hval, htg] at hmem
                obtain ⟨-, rfl⟩ := hmem
                exact no_empty_text_in_cloze_fields a.text a.backExtra
              | some ts =>
                simp [updateClozeCardHandler, hcc, hni, hm, hfb, hval, htg] at hmem
                obtain ⟨-, rfl⟩ := hmem
                exact no_empty_text_in_cloze_fields a.text a.backExtra
          · cases htg : a.tags with
            | none => simp [updateClozeCardHandler, hcc, hni, hm, hfb, htg] at hmem
            | some ts => simp [updateClozeCardHandler, hcc, hni, hm, hfb, htg] at hmem
        · simp [updateClozeCardHandler, hcc, hni, hm] at hmem

/-- Backend fixture for the C10 witness: every card resolves to note 7, whose
info is a Cloze note. -/
def w10Backend : Backend :=
  ⟨fun _ => [7], fun _ => [⟨"Cloze", [("Text", "t"), ("Back Extra", "e")], [3], []⟩]⟩

/-- C10 witness: concrete instances of the empty-equals-absent equivalence,
the no-write guarantee, and the no-empty-value guarantee. -/
theorem c10_empty_fields_treated_as_absent_witness :
    updateCardHandler w10Backend ⟨5, some "", none, none⟩ =
      updateCardHandler w10Backend ⟨5, none, none, none⟩ ∧
    (⟨"cardsToNotes", ReqParams.cardsToNotes [5]⟩ : Request).action ≠ "updateNoteFields" ∧
    (("Front", "") ∉ [("Front", "f")] ∧ ("Back", "") ∉ [("Front", "f")]) ∧
    ("Text", "") ∉ [("Text", "\x7b\x7bc1::q\x7d\x7d"), ("Back Extra", "")] := by
  refine ⟨?_, ?_, ?_, ?_⟩
  · exact c10_empty_fields_treated_as_absent.1 w10Backend ⟨5, some "x", none, none⟩
  · exact c10_empty_fields_treated_as_absent.2.2.2.1 w10Backend ⟨5, some "", some "", none⟩
      (by decide) (by decide) ⟨"cardsToNotes", ReqParams.cardsToNotes [5]⟩ (by decide)
  · exact c10_empty_fields_treated_as_absent.2.2.2.2.2.1 w10Backend ⟨5, some "f", none, none⟩
      7 [("Front", "f")] (by decide)
  · exact c10_empty_fields_treated_as_absent.2.2.2.2.2.2 w10Backend
      ⟨5, some "\x7b\x7bc1::q\x7d\x7d", some "", none⟩
      7 [("Text", "\x7b\x7bc1::q\x7d\x7d"), ("Back Extra", "")] (by decide)

/-! ## Deck listing batches (`ReadResourceRequestSchema` handler,
src/index.ts lines 595-612)

The handler slices the found note ids into chunks of 5
(`noteIds.slice(i, i + 5)` for `i = 0, 5, 10, ...`), issues one `notesInfo`
call per chunk in order, and concatenates the results. -/

/-- The chunking of the `for (let i = 0; i < noteIds.length; i += chunkSize)`
loop with `chunkSize = 5`. -/
def chunks5 : List Nat → List (List Nat)
  | [] => []
  | x :: xs => ((x :: xs).take 5) :: chunks5 ((x :: xs).drop 5)
termination_by l => l.length
decreasing_by simp [List.length_drop]; omega

/-- The batched note fetch: the ordered `notesInfo` requests (one per chunk)
and the concatenated `allNotes`, with `info` giving the backend's note record
for each note id. -/
def fetchDeckNotes (info : Nat → RawNote) (noteIds : List Nat) :
    List Request × List RawNote :=
  ((chunks5 noteIds).map (fun c => ⟨"notesInfo", .notesInfo c⟩),
   ((chunks5 noteIds).map (fun c => c.map info)).flatten)

theorem chunks5_flatten : ∀ l : List Nat, (chunks5 l).flatten = l := by
  intro l
  induction l using chunks5.induct with
  | case1 => simp [chunks5]
  | case2 x xs ih =>
    rw [chunks5, List.flatten_cons, ih, List.take_append_drop]

theorem chunks5_sizes : ∀ l : List Nat,
    (chunks5 l).map List.length =
      List.replicate (l.length / 5) 5 ++
        (if l.length % 5 = 0 then [] else [l.length % 5]) := by
  intro l
  induction l using chunks5.induct with
  | case1 => simp [chunks5]
  | case2 x xs ih =>
    rw [chunks5, List.map_cons, ih]
    simp only [List.length_take, List.length_drop, List.length_cons]
    rcases le_or_lt (xs.length + 1) 5 with h5 | h5
    · have hmin : min 5 (xs.length + 1) = xs.length + 1 := Nat.min_eq_right h5
      have hsub : xs.length + 1 - 5 = 0 := by omega
      rw [hmin, hsub]
      rcases eq_or_lt_of_le h5 with h5e | h5l
      · rw [h5e]
        decide
      · have hd : (xs.length + 1) / 5 = 0 := Nat.div_eq_of_lt h5l
        have hm : (xs.length + 1) % 5 = xs.length + 1 := Nat.mod_eq_of_lt h5l
        rw [hd, hm]
        simp
    · have hmin : min 5 (xs.length + 1) = 5 := Nat.min_eq_left (by omega)
      rw [hmin]
      obtain ⟨m, hm'⟩ : ∃ m, xs.length + 1 = m + 5 := ⟨xs.length + 1 - 5, by omega⟩
      rw [hm', Nat.add_sub_cancel, Nat.add_div_right m (by norm_num),
        Nat.add_mod_right, List.replicate_succ, List.cons_append]

theorem chunks5_count (l : List Nat) : (chunks5 l).length = (l.length + 4) / 5 := by
  have h := congrArg List.length (chunks5_sizes l)
  rw [List.length_map, List.length_append, List.length_replicate] at h
  by_cases hm : l.length % 5 = 0
  · rw [if_pos hm] at h
    simp only [List.length_nil] at h
    omega
  · rw [if_neg hm] at h
    simp only [List.length_singleton] at h
    omega

theorem flatten_map_map (info : Nat → RawNote) :
    ∀ L : List (List Nat), (L.map (fun c => c.map info)).flatten = L.flatten.map info := by
  intro L
  induction L with
  | nil => simp
  | cons a t ih =>
    rw [List.map_cons, List.flatten_cons, List.flatten_cons, ih, List.map_append]

/-- C8 (confirmed): for n found note ids, the deck listing issues exactly
ceil(n/5) sequential `notesInfo` batches, of sizes 5, ..., 5 and then
`n mod 5` when non-zero (for n = 12: sizes 5, 5, 2 in order), and the
concatenated result is the notes of the original ids in the original order,
of length n. -/
theorem c8_deck_batching (info : Nat → RawNote) (noteIds : List Nat) :
    (fetchDeckNotes info noteIds).1 =
      (chunks5 noteIds).map (fun c => ⟨"notesInfo", ReqParams.notesInfo c⟩) ∧
    (chunks5 noteIds).length = (noteIds.length + 4) / 5 ∧
    (chunks5 noteIds).map List.length =
      List.replicate (noteIds.length / 5) 5 ++
        (if noteIds.length % 5 = 0 then [] else [noteIds.length % 5]) ∧
    (fetchDeckNotes info noteIds).2 = noteIds.map info ∧
    (fetchDeckNotes info noteIds).2.length = noteIds.length ∧
    (chunks5 [1, 2, 3, 4, 5, 6, 7, 8, 9, 10, 11, 12]).map List.length = [5, 5, 2] := by
  have h4 : (fetchDeckNotes info noteIds).2 = noteIds.map info := by
    show ((chunks5 noteIds).map (fun c => c.map info)).flatten = noteIds.map info
    rw [flatten_map_map, chunks5_flatten]
  refine ⟨rfl, chunks5_count noteIds, chunks5_sizes noteIds, h4, ?_, ?_⟩
  · rw [h4, List.length_map]
  · rw [chunks5_sizes]
    decide

end Clanki
